import Mathlib

/-!
Shallow embedding of `exam_result.py`, a Telegram bot answering exam-result
queries from a static JSON dataset.

Python strings are modelled as Lean `String`s, with the Python string
primitives used by the program (`in`, `lower`, `strip`, `split(maxsplit=1)`,
`isdigit`, `endswith`) re-implemented over the character list of the string so
that they compute by kernel reduction.  `lower` and `isdigit` are modelled on
the ASCII range, which is where the program's year tokens and search logic
live.

The dataset global `EXAM_DATA` (a JSON object mapping year keys to lists of
entry objects, in key insertion order) is modelled as an association list
`List (String × List Entry)`; the `REGION_LINK_MAP` global as
`List (String × String)`.  An entry's fields are the strings the Python code
reads out of the JSON object with `entry.get(field, default)`: a field missing
from the JSON is represented by its default (`""`, and `"N/A"` for
`download_link`), so every reachable field valuation is covered.

`handle_message` performs Telegram replies and HTTP downloads; those effects
are modelled as a list of `BotAction` values, and the outcome of
`requests.get` is supplied by an oracle `dl : String → String → Except String
String` mapping (url, referer) to either the body or the exception message.
The handler also reads the two global maps; the embedding packages them in a
`BotState` that the handler takes and returns, making the frame explicit.
-/

set_option maxRecDepth 4000

/-- Does the first character list occur at the start of the second?
Helper for the Python `in` operator on strings. -/
def startsWithChars : List Char → List Char → Bool
  | [], _ => true
  | _ :: _, [] => false
  | a :: as, b :: bs => a == b && startsWithChars as bs

/-- Does the first character list occur contiguously anywhere in the second? -/
def containsChars : List Char → List Char → Bool
  | needle, [] => needle.isEmpty
  | needle, c :: t => startsWithChars needle (c :: t) || containsChars needle t

/-- Python `needle in haystack` on strings: contiguous substring test. -/
def pyIn (needle haystack : String) : Bool :=
  containsChars needle.data haystack.data

/-- Python `s.lower()` (modelled on the ASCII range). -/
def pyLower (s : String) : String :=
  String.mk (s.data.map Char.toLower)

/-- Python `s.endswith(t)`. -/
def pyEndsWith (s t : String) : Bool :=
  startsWithChars t.data.reverse s.data.reverse

/-- Python `s.strip()`: remove leading and trailing whitespace. -/
def pyStrip (s : String) : String :=
  String.mk (((s.data.dropWhile Char.isWhitespace).reverse.dropWhile
    Char.isWhitespace).reverse)

/-- Python `s.isdigit()` (modelled on the ASCII range): nonempty and all
digits. -/
def pyIsDigit (s : String) : Bool :=
  !s.data.isEmpty && s.data.all Char.isDigit

/-- Python `s.split(maxsplit=1)` with no separator: split on the first
whitespace run, discarding leading whitespace; at most two pieces, the second
being the remainder after the whitespace run that follows the first token. -/
def pySplitMax1 (s : String) : List String :=
  let cs := s.data.dropWhile Char.isWhitespace
  if cs.isEmpty then []
  else
    let tok := cs.takeWhile (fun c => !c.isWhitespace)
    let rest := (cs.dropWhile (fun c => !c.isWhitespace)).dropWhile
      Char.isWhitespace
    if rest.isEmpty then [String.mk tok] else [String.mk tok, String.mk rest]

/-- One exam-result record, as read by the Python code from a JSON entry with
`entry.get("region", "")`, ..., `entry.get("download_link", "N/A")`. -/
structure Entry where
  region : String
  district : String
  township : String
  exam_center : String
  alphabet_code : String
  download_link : String
deriving DecidableEq, Repr

/-- The `EXAM_DATA` global: year key to per-year entry list, in the JSON
object's key order. -/
abbrev ExamData := List (String × List Entry)

/-- One element of the list returned by `search_exam_results`: the entry's
fields plus the year key it was found under. -/
structure SearchResult where
  year : String
  region : String
  district : String
  township : String
  exam_center : String
  alphabet_code : String
  download_link : String
deriving DecidableEq, Repr

/-- The dict appended to `found_results` for a matching entry. -/
def mkResult (year : String) (e : Entry) : SearchResult :=
  ⟨year, e.region, e.district, e.township, e.exam_center, e.alphabet_code,
    e.download_link⟩

/-- The match predicate of `search_exam_results`: the lower-cased query occurs
in one of the five lower-cased fields (lines 93-97). -/
def entryMatches (query_lower : String) (e : Entry) : Bool :=
  pyIn query_lower (pyLower e.region) ||
  pyIn query_lower (pyLower e.district) ||
  pyIn query_lower (pyLower e.township) ||
  pyIn query_lower (pyLower e.exam_center) ||
  pyIn query_lower (pyLower e.alphabet_code)

/-- The `continue` guard of the year loop: `if year_filter and year_filter !=
year: continue`.  Python truthiness: `None` and the empty string are falsy, so
they never cause a skip. -/
def skipYear (year_filter : Option String) (year : String) : Bool :=
  match year_filter with
  | none => false
  | some yf => !(yf == "") && !(yf == year)

/-- `search_exam_results(query, year_filter)` (lines 67-108): early return on
an empty dataset, then the nested accumulate-append loops. -/
def search_exam_results (data : ExamData) (query : String)
    (year_filter : Option String) : List SearchResult :=
  if data.isEmpty then []
  else
    let query_lower := pyLower query
    data.foldl
      (fun acc p =>
        if skipYear year_filter p.1 then acc
        else
          p.2.foldl
            (fun acc2 e =>
              if entryMatches query_lower e then acc2 ++ [mkResult p.1 e]
              else acc2)
            acc)
      []

/-- Modelled from the spec: an entry matches when its region, district,
township, exam_center, or alphabet_code contains the lower-cased query as a
case-insensitive substring. -/
def matchesSpec (query : String) (e : Entry) : Bool :=
  pyIn (pyLower query) (pyLower e.region) ||
  pyIn (pyLower query) (pyLower e.district) ||
  pyIn (pyLower query) (pyLower e.township) ||
  pyIn (pyLower query) (pyLower e.exam_center) ||
  pyIn (pyLower query) (pyLower e.alphabet_code)

/-- Modelled from the spec: the unfiltered search returns the matching entries
of every year, tagged with their year key, in dataset iteration order, with no
ranking or deduplication. -/
def searchSpec (data : ExamData) (query : String) : List SearchResult :=
  data.flatMap (fun p => (p.2.filter (matchesSpec query)).map (mkResult p.1))

theorem innerLoop_eq (m : Entry → Bool) (f : Entry → SearchResult)
    (es : List Entry) :
    ∀ acc : List SearchResult,
      es.foldl (fun acc2 e => if m e then acc2 ++ [f e] else acc2) acc =
        acc ++ (es.filter m).map f := by
  induction es with
  | nil => intro acc; simp
  | cons e es ih =>
    intro acc
    by_cases h : m e = true
    · simp [h, ih, List.filter_cons]
    · simp only [Bool.not_eq_true] at h
      simp [h, ih, List.filter_cons]

theorem outerLoop_eq (g : String × List Entry → List SearchResult)
    (m : Entry → Bool) (yf : Option String) (data : ExamData)
    (hg : ∀ p, g p = if skipYear yf p.1 then [] else (p.2.filter m).map
      (mkResult p.1)) :
    ∀ acc : List SearchResult,
      data.foldl
        (fun acc p =>
          if skipYear yf p.1 then acc
          else
            p.2.foldl
              (fun acc2 e => if m e then acc2 ++ [mkResult p.1 e] else acc2)
              acc)
        acc = acc ++ data.flatMap g := by
  induction data with
  | nil => intro acc; simp
  | cons p ps ih =>
    intro acc
    by_cases h : skipYear yf p.1 = true
    · simp [h, ih, hg]
    · simp only [Bool.not_eq_true] at h
      simp [h, ih, hg, innerLoop_eq m (mkResult p.1) p.2 acc]

/-- The nested loops of `search_exam_results`, written as a flat map over the
year groups. -/
theorem search_eq_flatMap (data : ExamData) (query : String)
    (yf : Option String) :
    search_exam_results data query yf =
      data.flatMap
        (fun p =>
          if skipYear yf p.1 then []
          else (p.2.filter (entryMatches (pyLower query))).map
            (mkResult p.1)) := by
  unfold search_exam_results
  cases data with
  | nil => simp
  | cons p ps =>
    simp only [List.isEmpty_cons, Bool.false_eq_true, if_false]
    exact (outerLoop_eq _ _ yf (p :: ps) (fun _ => rfl) []).trans (by simp)

/-- C1: with no year filter, `search_exam_results` returns exactly the entries
whose region, district, township, exam_center, or alphabet_code contains the
lower-cased query as a case-insensitive substring, each tagged with the year
key it was found under, in dataset iteration order (years in key order,
entries in per-year list order), with no ranking or deduplication. -/
theorem search_no_filter_eq_spec (data : ExamData) (query : String) :
    search_exam_results data query none = searchSpec data query := by
  rw [search_eq_flatMap]
  unfold searchSpec
  refine congrArg _ (funext fun p => ?_)
  simp only [skipYear, Bool.false_eq_true, if_false]
  rfl

/-- A sample entry with a usable PDF link, for concrete evaluations. -/
def sampleEntry : Entry :=
  ⟨"Yangon", "East", "Tamwe", "Center 1", "ABC", "http://x.org/a.pdf"⟩

/-- A sample entry whose download link is the `"N/A"` sentinel. -/
def sampleEntryNA : Entry :=
  ⟨"Mandalay", "West", "Amarapura", "Center 2", "XYZ", "N/A"⟩

/-- A sample two-year dataset. -/
def sampleData : ExamData :=
  [("2025", [sampleEntry]), ("2024", [sampleEntryNA])]

theorem containsChars_nil (l : List Char) : containsChars [] l = true := by
  cases l <;> simp [containsChars, startsWithChars]

theorem entryMatches_empty (e : Entry) :
    entryMatches (pyLower "") e = true := by
  simp [entryMatches, pyLower, pyIn, containsChars_nil]

/-- C8: with the empty query and no year filter, the search returns every
entry of every year, tagged with its year key, in dataset order. -/
theorem search_empty_query_returns_all (data : ExamData) :
    search_exam_results data "" none =
      data.flatMap (fun p => p.2.map (mkResult p.1)) := by
  rw [search_eq_flatMap]
  refine congrArg _ (funext fun p => ?_)
  simp only [skipYear, Bool.false_eq_true, if_false]
  rw [List.filter_eq_self.mpr fun e _ => entryMatches_empty e]

/-- C7: every search result's `year` field is a year key of the dataset, and
the result is built from an entry of that year's group. -/
theorem search_result_year_is_key (data : ExamData) (query : String)
    (yf : Option String) (r : SearchResult)
    (h : r ∈ search_exam_results data query yf) :
    r.year ∈ data.map Prod.fst ∧
      ∃ es e, (r.year, es) ∈ data ∧ e ∈ es ∧
        entryMatches (pyLower query) e = true ∧ r = mkResult r.year e := by
  rw [search_eq_flatMap] at h
  rcases List.mem_flatMap.mp h with ⟨p, hp, hr⟩
  by_cases hs : skipYear yf p.1 = true
  · simp [hs] at hr
  · simp only [Bool.not_eq_true] at hs
    simp only [hs, Bool.false_eq_true, if_false, List.mem_map] at hr
    rcases hr with ⟨e, he, rfl⟩
    rcases List.mem_filter.mp he with ⟨hee, hem⟩
    have hy : (mkResult p.1 e).year = p.1 := rfl
    constructor
    · rw [hy]; exact List.mem_map.mpr ⟨p, hp, rfl⟩
    · exact ⟨p.2, e, by rw [hy]; exact hp, hee, hem, rfl⟩

/-- Concrete instantiation of `search_result_year_is_key`. -/
theorem search_result_year_is_key_witness :
    mkResult "2025" sampleEntry ∈ search_exam_results sampleData "" none ∧
      ((mkResult "2025" sampleEntry).year ∈ sampleData.map Prod.fst ∧
        ∃ es e, ((mkResult "2025" sampleEntry).year, es) ∈ sampleData ∧
          e ∈ es ∧ entryMatches (pyLower "") e = true ∧
          mkResult "2025" sampleEntry = mkResult
            (mkResult "2025" sampleEntry).year e) :=
  ⟨by decide,
    search_result_year_is_key sampleData "" none (mkResult "2025" sampleEntry)
      (by decide)⟩

/-- C9 as stated fails for the empty-string year filter: Python's `if
year_filter and ...` treats `""` as falsy, so the filter is ignored and every
year's results are returned, while no result has year `""`. -/
theorem search_filter_not_sublist_for_empty_year :
    ¬ (search_exam_results sampleData "" (some "") =
      (search_exam_results sampleData "" none).filter
        (fun r => r.year == "")) := by
  decide

theorem filter_year_of_map (y yr : String) (l : List Entry) :
    (l.map (mkResult yr)).filter (fun r => r.year == y) =
      if yr == y then l.map (mkResult yr) else [] := by
  rw [List.filter_map]
  by_cases hy : yr = y
  · subst hy; simp [Function.comp_def, mkResult]
  · simp [Function.comp_def, mkResult, hy]

/-- C9 (amended): for every query and every nonempty year filter `y`, the
filtered search returns exactly the sublist of the unfiltered search's results
whose year equals `y`.  (The empty-string filter is falsy in Python and
disables filtering, so it is excluded.) -/
theorem search_year_filter_eq_filter (data : ExamData) (query : String)
    (y : String) (h : y ≠ "") :
    search_exam_results data query (some y) =
      (search_exam_results data query none).filter (fun r => r.year == y) := by
  rw [search_eq_flatMap, search_eq_flatMap]
  induction data with
  | nil => simp
  | cons p ps ih =>
    simp only [List.flatMap_cons, List.filter_append]
    rw [← ih]
    congr 1
    have hnone : skipYear none p.1 = false := rfl
    simp only [hnone, Bool.false_eq_true, if_false]
    rw [filter_year_of_map]
    by_cases hp : p.1 = y
    · rw [hp]
      have hs : skipYear (some y) y = false := by
        simp [skipYear]
      simp [hs]
    · have hs : skipYear (some y) p.1 = true := by
        have h1 : (y == "") = false := beq_eq_false_iff_ne.mpr h
        have h2 : (y == p.1) = false :=
          beq_eq_false_iff_ne.mpr fun c => hp c.symm
        simp [skipYear, h1, h2]
      simp [hs, hp]

/-- Concrete instantiation of `search_year_filter_eq_filter`. -/
theorem search_year_filter_eq_filter_witness :
    "2025" ≠ "" ∧
      search_exam_results sampleData "" (some "2025") =
        (search_exam_results sampleData "" none).filter
          (fun r => r.year == "2025") :=
  ⟨by decide, search_year_filter_eq_filter sampleData "" "2025" (by decide)⟩

/-- Observable effects of a handler invocation: Telegram replies and the HTTP
request issued by `requests.get`. -/
inductive BotAction where
  | replyText : String → BotAction
  | replyHtml : String → BotAction
  | replyDocument : String → String → BotAction
  | httpGet : String → String → BotAction
deriving DecidableEq, Repr

/-- The two globals read by the handlers: `EXAM_DATA` and `REGION_LINK_MAP`. -/
structure BotState where
  examData : ExamData
  regionLinkMap : List (String × String)
deriving DecidableEq, Repr

/-- `load_exam_data` (lines 27-64), with the file reads abstracted: each
`try` block either yields parsed data or raises, and every `except` branch
resets the corresponding global to empty. -/
def load_exam_data (examSrc : Except String ExamData)
    (regionsSrc : Except String (List (String × String))) : BotState :=
  ⟨match examSrc with
    | Except.ok d => d
    | Except.error _ => [],
   match regionsSrc with
    | Except.ok m => m
    | Except.error _ => []⟩

/-- The apology sent when `EXAM_DATA` is empty (lines 137-139). -/
def apologyText : String :=
  "I\x27m sorry, I couldn\x27t load the exam data. Please ensure " ++
  "`all_regions_detailed_data.json` exists and is valid."

/-- Reply sent before per-result processing (line 161). -/
def foundMsg (n : Nat) : String :=
  "Found " ++ toString n ++ " result(s). Attempting to send PDFs..."

/-- Reply sent when the search finds nothing (lines 231-233). -/
def noResultsMsg (uq : String) : String :=
  "No results found for \x27" ++ uq ++ "\x27. Please try a different query."

/-- Notice sent when a 4-digit token is not a year key (line 153). -/
def noYearNotice (tok uq : String) : String :=
  "No data found for year \x27" ++ tok ++ "\x27. Searching across all " ++
  "years for \x27" ++ uq ++ "\x27."

/-- The HTML block describing result `i` (lines 172-179). -/
def resultInfoHtml (i : Nat) (r : SearchResult) : String :=
  "<b>Result " ++ toString (i + 1) ++ ":</b>\n" ++
  "<b>Year:</b> " ++ r.year ++ "\n" ++
  "<b>Region:</b> " ++ r.region ++ "\n" ++
  "<b>District:</b> " ++ r.district ++ "\n" ++
  "<b>Township:</b> " ++ r.township ++ "\n" ++
  "<b>Exam Center:</b> " ++ r.exam_center ++ "\n" ++
  "<b>Alphabet Code:</b> " ++ r.alphabet_code ++ "\n"

/-- The HTML reply for a result whose link is absent or not a PDF
(lines 172-181). -/
def invalidLinkMsg (i : Nat) (r : SearchResult) : String :=
  resultInfoHtml i r ++ "Download link not available or invalid: " ++
    r.download_link

/-- The caption attached to a successfully sent PDF (lines 208-216). -/
def captionHtml (i : Nat) (r : SearchResult) : String :=
  "<b>Result " ++ toString (i + 1) ++ ":</b>\n" ++
  "<b>Year:</b> " ++ r.year ++ "\n" ++
  "<b>Region:</b> " ++ r.region ++ "\n" ++
  "<b>District:</b> " ++ r.district ++ "\n" ++
  "<b>Township:</b> " ++ r.township ++ "\n" ++
  "<b>Exam Center:</b> " ++ r.exam_center ++ "\n" ++
  "<b>Alphabet Code:</b> " ++ r.alphabet_code

/-- The reply for a failed download (line 224). -/
def downloadErrorMsg (r : SearchResult) (e : String) : String :=
  "Could not download PDF for: " ++ r.region ++ " - " ++ r.exam_center ++
    ". Error: " ++ e

/-- Filename construction with the two-stage length fallback
(lines 197-203). -/
def filenameFor (r : SearchResult) : String :=
  let f1 := r.region ++ "_" ++ r.district ++ "_" ++ r.township ++ "_" ++
    r.exam_center ++ "_" ++ r.alphabet_code ++ "_" ++ r.year ++ ".pdf"
  if f1.length > 250 then
    let f2 := r.region ++ "_" ++ r.alphabet_code ++ "_" ++ r.year ++ ".pdf"
    if f2.length > 250 then "ExamResult_" ++ r.year ++ ".pdf" else f2
  else f1

/-- `REGION_LINK_MAP.get(region_name, "https://www.myanmarexam.org/")`
(line 169). -/
def refererFor (lm : List (String × String)) (region : String) : String :=
  match lm.find? (fun p => p.1 == region) with
  | some p => p.2
  | none => "https://www.myanmarexam.org/"

/-- The body of the per-result loop of `handle_message` (lines 163-228):
either an HTML reply for an unusable link, or an HTTP GET followed by the
document reply (success) or the error reply (failure), with the outcome of
`requests.get` supplied by the oracle `dl`. -/
def process_result (lm : List (String × String))
    (dl : String → String → Except String String) :
    Nat × SearchResult → List BotAction := fun pr =>
  let i := pr.1
  let r := pr.2
  let referer := refererFor lm r.region
  if r.download_link == "N/A" || !(pyEndsWith r.download_link ".pdf") then
    [BotAction.replyHtml (invalidLinkMsg i r)]
  else
    match dl r.download_link referer with
    | Except.ok _ =>
        [BotAction.httpGet r.download_link referer,
         BotAction.replyDocument (filenameFor r) (captionHtml i r)]
    | Except.error e =>
        [BotAction.httpGet r.download_link referer,
         BotAction.replyText (downloadErrorMsg r e)]

/-- The `if results: ... else: ...` tail of `handle_message`
(lines 159-233). -/
def respond_actions (lm : List (String × String))
    (dl : String → String → Except String String)
    (results : List SearchResult) (uq : String) : List BotAction :=
  if results.isEmpty then [BotAction.replyText (noResultsMsg uq)]
  else
    BotAction.replyText (foundMsg results.length) ::
      results.enum.flatMap (process_result lm dl)

/-- `potential_year in EXAM_DATA` (line 147). -/
def hasYear (data : ExamData) (y : String) : Bool :=
  data.any (fun p => p.1 == y)

/-- The year-token parsing of `handle_message` (lines 142-155): returns the
year filter, the effective query, and the notice actions sent while
parsing. -/
def parse_query (data : ExamData) (uq : String) :
    Option String × String × List BotAction :=
  match pySplitMax1 uq with
  | tok :: rest :: _ =>
      if pyIsDigit tok && tok.length == 4 then
        if hasYear data tok then (some tok, rest, [])
        else (none, uq, [BotAction.replyText (noYearNotice tok uq)])
      else (none, uq, [])
  | _ => (none, uq, [])

/-- The notice actions produced while parsing the message text. -/
def message_notice (data : ExamData) (uq : String) : List BotAction :=
  (parse_query data uq).2.2

/-- The search-result list `handle_message` computes for a message text
(line 157). -/
def message_results (data : ExamData) (uq : String) : List SearchResult :=
  search_exam_results data (parse_query data uq).2.1 (parse_query data uq).1

/-- `handle_message` (lines 131-233): strip the text, apologise on an empty
dataset, otherwise parse the year token, search, and respond per result.  The
returned `BotState` is the state of the globals after the handler. -/
def handle_message (st : BotState)
    (dl : String → String → Except String String) (text : String) :
    List BotAction × BotState :=
  let uq := pyStrip text
  if st.examData.isEmpty then ([BotAction.replyText apologyText], st)
  else
    (message_notice st.examData uq ++
      respond_actions st.regionLinkMap dl (message_results st.examData uq) uq,
     st)

/-- The `/start` greeting (lines 112-121). -/
def startText (userMention : String) : String :=
  "Hi " ++ userMention ++ "! I\x27m your Exam Result Bot.\n\n" ++
  "Send me a Region, District, Township, Exam Center name, or Alphabet " ++
  "Code to find results. " ++
  "You can also specify a year, e.g., \x272025 ရန်ကုန်တိုင်းဒေသကြီး\x27. " ++
  "For example: \x27တောင်ကြီး\x27, \x27ရတက\x27, \x27ရန်ကုန်တိုင်းဒေသကြီး\x27, " ++
  "or \x272025 ရန်ကုန်တိုင်းဒေသကြီး\x27."

/-- The `/start` handler (lines 112-121). -/
def start (st : BotState) (userMention : String) : List BotAction × BotState :=
  ([BotAction.replyHtml (startText userMention)], st)

/-- The `/help` reply text (lines 123-129). -/
def helpText : String :=
  "Send me a Region, District, Township, Exam Center name, or Alphabet " ++
  "Code to find results. " ++
  "You can also specify a year at the beginning of your query, e.g., " ++
  "\x272025 ရန်ကုန်တိုင်းဒေသကြီး\x27. " ++
  "I will search for matches and send the relevant PDF if available."

/-- The `/help` handler (lines 123-129). -/
def help_command (st : BotState) : List BotAction × BotState :=
  ([BotAction.replyText helpText], st)

/-- A sample region link map. -/
def sampleLinkMap : List (String × String) :=
  [("Yangon", "https://www.myanmarexam.org/yangon")]

/-- A sample state with both years loaded. -/
def sampleState : BotState := ⟨sampleData, sampleLinkMap⟩

/-- A download oracle that always fails with message `"boom"`. -/
def dlFail : String → String → Except String String :=
  fun _ _ => Except.error "boom"

/-- A download oracle that always succeeds with body `"PDF"`. -/
def dlOk : String → String → Except String String :=
  fun _ _ => Except.ok "PDF"

/-- C6: the message handlers leave the global state (dataset and region link
map) unchanged; `search_exam_results` is embedded as a pure reader of the
dataset and produces a fresh list. -/
theorem handlers_preserve_state (st : BotState)
    (dl : String → String → Except String String) (text userMention : String) :
    (handle_message st dl text).2 = st ∧ (start st userMention).2 = st ∧
      (help_command st).2 = st := by
  refine ⟨?_, rfl, rfl⟩
  unfold handle_message
  by_cases h : st.examData.isEmpty <;> simp [h]

/-- C4: an empty dataset (also the one a failed load degrades to) makes the
search return the empty list, and makes `handle_message` reply with the
apology and nothing else. -/
theorem empty_dataset_yields_nothing (q : String) (yf : Option String)
    (st : BotState) (dl : String → String → Except String String)
    (text e : String) (rs : Except String (List (String × String))) :
    search_exam_results [] q yf = [] ∧
      (load_exam_data (Except.error e) rs).examData = [] ∧
      (st.examData = [] →
        handle_message st dl text = ([BotAction.replyText apologyText], st)) := by
  refine ⟨rfl, rfl, fun h => ?_⟩
  unfold handle_message
  simp [h]

/-- Concrete instantiation of `empty_dataset_yields_nothing`. -/
theorem empty_dataset_yields_nothing_witness :
    search_exam_results [] "x" none = [] ∧
      (load_exam_data (Except.error "boom")
        (Except.ok sampleLinkMap)).examData = [] ∧
      handle_message ⟨[], sampleLinkMap⟩ dlFail "hello" =
        ([BotAction.replyText apologyText], ⟨[], sampleLinkMap⟩) := by
  have h := empty_dataset_yields_nothing "x" none ⟨[], sampleLinkMap⟩ dlFail
    "hello" "boom" (Except.ok sampleLinkMap)
  exact ⟨h.1, h.2.1, h.2.2 rfl⟩

/-- C2: when the message starts with a 4-digit token that is a year key of
the dataset, the handler searches only that year's entries, with the
remainder of the split as the effective query, and sends no notice. -/
theorem year_token_restricts_search (st : BotState)
    (dl : String → String → Except String String) (text tok rest : String)
    (h1 : pySplitMax1 (pyStrip text) = [tok, rest])
    (h2 : pyIsDigit tok = true) (h3 : tok.length = 4)
    (h4 : hasYear st.examData tok = true) :
    (handle_message st dl text).1 =
      respond_actions st.regionLinkMap dl
        (search_exam_results st.examData rest (some tok)) (pyStrip text) := by
  have hnil : st.examData ≠ [] := by
    intro hd; rw [hd] at h4; simp [hasYear] at h4
  have hne : st.examData.isEmpty = false := by
    cases hd : st.examData with
    | nil => exact absurd hd hnil
    | cons a l => rfl
  have hp : parse_query st.examData (pyStrip text) = (some tok, rest, []) := by
    unfold parse_query
    rw [h1]
    simp [h2, h3, h4]
  simp [handle_message, hne, message_notice, message_results, hp]

/-- Concrete instantiation of `year_token_restricts_search`. -/
theorem year_token_restricts_search_witness :
    pySplitMax1 (pyStrip "2025 Yangon") = ["2025", "Yangon"] ∧
      pyIsDigit "2025" = true ∧ ("2025" : String).length = 4 ∧
      hasYear sampleState.examData "2025" = true ∧
      (handle_message sampleState dlOk "2025 Yangon").1 =
        respond_actions sampleState.regionLinkMap dlOk
          (search_exam_results sampleState.examData "Yangon" (some "2025"))
          (pyStrip "2025 Yangon") :=
  ⟨by decide, by decide, by decide, by decide,
    year_token_restricts_search sampleState dlOk "2025 Yangon" "2025" "Yangon"
      (by decide) (by decide) (by decide) (by decide)⟩

/-- C3: when the message starts with a 4-digit token that is not a year key,
the handler sends the notice and then performs an unfiltered search whose
query is the whole stripped input, year token included. -/
theorem unknown_year_notice_and_fallback (st : BotState)
    (dl : String → String → Except String String) (text tok rest : String)
    (h1 : pySplitMax1 (pyStrip text) = [tok, rest])
    (h2 : pyIsDigit tok = true) (h3 : tok.length = 4)
    (h4 : hasYear st.examData tok = false)
    (h5 : st.examData.isEmpty = false) :
    (handle_message st dl text).1 =
      BotAction.replyText (noYearNotice tok (pyStrip text)) ::
        respond_actions st.regionLinkMap dl
          (search_exam_results st.examData (pyStrip text) none)
          (pyStrip text) := by
  have hp : parse_query st.examData (pyStrip text) =
      (none, pyStrip text,
        [BotAction.replyText (noYearNotice tok (pyStrip text))]) := by
    unfold parse_query
    rw [h1]
    simp [h2, h3, h4]
  simp [handle_message, h5, message_notice, message_results, hp]

/-- Concrete instantiation of `unknown_year_notice_and_fallback`. -/
theorem unknown_year_notice_and_fallback_witness :
    pySplitMax1 (pyStrip "1999 Yangon") = ["1999", "Yangon"] ∧
      pyIsDigit "1999" = true ∧ ("1999" : String).length = 4 ∧
      hasYear sampleState.examData "1999" = false ∧
      sampleState.examData.isEmpty = false ∧
      (handle_message sampleState dlOk "1999 Yangon").1 =
        BotAction.replyText (noYearNotice "1999" (pyStrip "1999 Yangon")) ::
          respond_actions sampleState.regionLinkMap dlOk
            (search_exam_results sampleState.examData (pyStrip "1999 Yangon")
              none)
            (pyStrip "1999 Yangon") :=
  ⟨by decide, by decide, by decide, by decide, by decide,
    unknown_year_notice_and_fallback sampleState dlOk "1999 Yangon" "1999"
      "Yangon" (by decide) (by decide) (by decide) (by decide) (by decide)⟩

/-- C5: a failed download for one result yields the HTTP attempt followed by
the per-result error reply naming region and exam center; the per-result loop
is a concatenation over the result list, so every other result is still
processed, and the handler emits the whole loop after its header. -/
theorem download_failure_is_isolated (st : BotState)
    (dl : String → String → Except String String) (text : String)
    (lm : List (String × String)) (i : Nat) (r : SearchResult) (e : String)
    (hlink : (r.download_link == "N/A" ||
      !(pyEndsWith r.download_link ".pdf")) = false)
    (hdl : dl r.download_link (refererFor lm r.region) = Except.error e)
    (hne : st.examData.isEmpty = false)
    (hres : (message_results st.examData (pyStrip text)).isEmpty = false) :
    process_result lm dl (i, r) =
      [BotAction.httpGet r.download_link (refererFor lm r.region),
       BotAction.replyText (downloadErrorMsg r e)] ∧
    (∀ pre post : List (Nat × SearchResult),
      (pre ++ (i, r) :: post).flatMap (process_result lm dl) =
        pre.flatMap (process_result lm dl) ++
          BotAction.httpGet r.download_link (refererFor lm r.region) ::
          BotAction.replyText (downloadErrorMsg r e) ::
          post.flatMap (process_result lm dl)) ∧
    (handle_message st dl text).1 =
      message_notice st.examData (pyStrip text) ++
        BotAction.replyText
          (foundMsg (message_results st.examData (pyStrip text)).length) ::
          (message_results st.examData (pyStrip text)).enum.flatMap
            (process_result st.regionLinkMap dl) := by
  have h1 : process_result lm dl (i, r) =
      [BotAction.httpGet r.download_link (refererFor lm r.region),
       BotAction.replyText (downloadErrorMsg r e)] := by
    simp [process_result, hlink, hdl]
  refine ⟨h1, fun pre post => ?_, ?_⟩
  · rw [List.flatMap_append, List.flatMap_cons, h1]; simp
  · simp [handle_message, hne, respond_actions, hres]

/-- Concrete instantiation of `download_failure_is_isolated`. -/
theorem download_failure_is_isolated_witness :
    ((mkResult "2025" sampleEntry).download_link == "N/A" ||
      !(pyEndsWith (mkResult "2025" sampleEntry).download_link ".pdf")) =
      false ∧
    dlFail (mkResult "2025" sampleEntry).download_link
        (refererFor sampleLinkMap (mkResult "2025" sampleEntry).region) =
      Except.error "boom" ∧
    sampleState.examData.isEmpty = false ∧
    (message_results sampleState.examData (pyStrip "Yangon")).isEmpty =
      false ∧
    process_result sampleLinkMap dlFail (0, mkResult "2025" sampleEntry) =
      [BotAction.httpGet (mkResult "2025" sampleEntry).download_link
        (refererFor sampleLinkMap (mkResult "2025" sampleEntry).region),
       BotAction.replyText
         (downloadErrorMsg (mkResult "2025" sampleEntry) "boom")] ∧
    ([] ++ (0, mkResult "2025" sampleEntry) ::
        [(1, mkResult "2024" sampleEntryNA)]).flatMap
        (process_result sampleLinkMap dlFail) =
      ([] : List (Nat × SearchResult)).flatMap
          (process_result sampleLinkMap dlFail) ++
        BotAction.httpGet (mkResult "2025" sampleEntry).download_link
          (refererFor sampleLinkMap (mkResult "2025" sampleEntry).region) ::
        BotAction.replyText
          (downloadErrorMsg (mkResult "2025" sampleEntry) "boom") ::
        [(1, mkResult "2024" sampleEntryNA)].flatMap
          (process_result sampleLinkMap dlFail) ∧
    (handle_message sampleState dlFail "Yangon").1 =
      message_notice sampleState.examData (pyStrip "Yangon") ++
        BotAction.replyText
          (foundMsg (message_results sampleState.examData
            (pyStrip "Yangon")).length) ::
          (message_results sampleState.examData (pyStrip "Yangon")).enum.flatMap
            (process_result sampleState.regionLinkMap dlFail) := by
  have h := download_failure_is_isolated sampleState dlFail "Yangon"
    sampleLinkMap 0 (mkResult "2025" sampleEntry) "boom" (by decide) rfl
    (by decide) (by decide)
  exact ⟨by decide, rfl, by decide, by decide, h.1,
    h.2.1 [] [(1, mkResult "2024" sampleEntryNA)], h.2.2⟩

/-- C10: a result whose link is the `"N/A"` sentinel or does not end in
`".pdf"` gets only the HTML not-available reply, and an HTTP request is only
ever issued for a result whose link is not `"N/A"` and ends in `".pdf"`. -/
theorem invalid_link_skips_download (lm : List (String × String))
    (dl : String → String → Except String String) (i : Nat) (r : SearchResult)
    (h : (r.download_link == "N/A" ||
      !(pyEndsWith r.download_link ".pdf")) = true) :
    process_result lm dl (i, r) = [BotAction.replyHtml (invalidLinkMsg i r)] ∧
    (∀ (lm2 : List (String × String))
      (dl2 : String → String → Except String String) (i2 : Nat)
      (r2 : SearchResult) (u ref : String),
      BotAction.httpGet u ref ∈ process_result lm2 dl2 (i2, r2) →
        (r2.download_link == "N/A") = false ∧
          pyEndsWith r2.download_link ".pdf" = true) := by
  constructor
  · simp [process_result, h]
  · intro lm2 dl2 i2 r2 u ref hmem
    by_cases hc : (r2.download_link == "N/A" ||
        !(pyEndsWith r2.download_link ".pdf")) = true
    · simp [process_result, hc] at hmem
    · simp only [Bool.not_eq_true] at hc
      rcases Bool.or_eq_false_iff.mp hc with ⟨ha, hb⟩
      exact ⟨ha, by simpa using hb⟩

/-- Concrete instantiation of `invalid_link_skips_download`. -/
theorem invalid_link_skips_download_witness :
    ((mkResult "2024" sampleEntryNA).download_link == "N/A" ||
      !(pyEndsWith (mkResult "2024" sampleEntryNA).download_link ".pdf")) =
      true ∧
    process_result sampleLinkMap dlFail (0, mkResult "2024" sampleEntryNA) =
      [BotAction.replyHtml (invalidLinkMsg 0 (mkResult "2024" sampleEntryNA))] ∧
    BotAction.httpGet (mkResult "2025" sampleEntry).download_link
        (refererFor sampleLinkMap (mkResult "2025" sampleEntry).region) ∈
      process_result sampleLinkMap dlOk (0, mkResult "2025" sampleEntry) ∧
    ((mkResult "2025" sampleEntry).download_link == "N/A") = false ∧
    pyEndsWith (mkResult "2025" sampleEntry).download_link ".pdf" = true := by
  have h := invalid_link_skips_download sampleLinkMap dlFail 0
    (mkResult "2024" sampleEntryNA) (by decide)
  have hx := h.2 sampleLinkMap dlOk 0 (mkResult "2025" sampleEntry)
    (mkResult "2025" sampleEntry).download_link
    (refererFor sampleLinkMap (mkResult "2025" sampleEntry).region)
    (by decide)
  exact ⟨by decide, h.1, by decide, hx.1, hx.2⟩
